import Mathlib

/-!
Verification of the admission-control and tool-invocation core of the
Inarva chatbot backend (`app/core/rate_limiter.py`, `app/core/security.py`,
`app/mcp/client.py`, `app/api/deps.py`).

Modelling conventions:
* `time.time()` values (floats) are modelled as rationals (`ℚ`); Python
  `int()` truncation is `pyTrunc`.
* The Redis store is modelled as a total map from key strings to values.
  A pipeline built with `redis.pipeline()` (default `transaction=True`,
  i.e. MULTI/EXEC) executes as one atomic step; commands issued outside a
  pipeline are separate steps.
* Key TTLs (`expire` calls) are not modelled: no claim under scrutiny
  depends on key expiry, only on score-based eviction.
* Network traffic of the MCP client is an oracle: each attempt receives an
  `AttemptOutcome` describing what the `httpx` call did (timeout, delivered
  response, other raised exception).
-/

namespace Chatbot

/-- Python `int(x)` on a float: truncation toward zero. -/
def pyTrunc (x : ℚ) : ℤ := if 0 ≤ x then ⌊x⌋ else -⌊-x⌋

/-! ## Sliding-window rate limiter (`app/core/rate_limiter.py`, class `RateLimiter`)

A Redis sorted set under one key holds one member per admitted request,
member `str(now)` with score `now`; since the member is the printed score,
the set is modelled as a duplicate-free list of rational scores. -/

/-- The Redis keyspace used by `RateLimiter`: each key holds a sorted set of
timestamps (scores). -/
abbrev WStore := String → List ℚ

def emptyWStore : WStore := fun _ => []

/-- Redis `ZREMRANGEBYSCORE key lo hi`: drop members with score in `[lo, hi]`. -/
def zremrangebyscore (l : List ℚ) (lo hi : ℚ) : List ℚ :=
  l.filter (fun s => decide (¬ (lo ≤ s ∧ s ≤ hi)))

/-- Redis `ZADD key {str(now): now}`: member keyed by its printed score, so
adding an already-present score is a no-op. -/
def zadd (l : List ℚ) (t : ℚ) : List ℚ := if t ∈ l then l else t :: l

/-- Redis `ZREM key str(now)`: remove the member with score `t`. -/
def zrem (l : List ℚ) (t : ℚ) : List ℚ := l.filter (fun s => decide (s ≠ t))

/-- The `info` dict built by `RateLimiter.is_allowed`. -/
structure RateInfo where
  limit : ℤ
  remaining : ℤ
  reset : ℤ
  window : ℕ
deriving Repr, DecidableEq

structure AllowResult where
  allowed : Bool
  info : RateInfo
deriving Repr, DecidableEq

/-- The survivors of the eviction step: entries of the key's set whose score is
outside `[0, now - window_seconds]`. The count the limiter bases its decision
on is the length of this list (the `ZCARD` runs after the eviction and before
the `ZADD` of the current request). -/
def surviving (st : WStore) (key : String) (window_seconds : ℕ) (now : ℚ) : List ℚ :=
  zremrangebyscore (st key) 0 (now - window_seconds)

/-- The atomic pipeline portion of `RateLimiter.is_allowed` (lines 31-50):
evict old entries, count, add the current timestamp, set expiry — one
MULTI/EXEC unit — followed by the local decision on the returned count.
Returns (allowed, info, count, store after the pipeline). -/
def is_allowed_pipeline (st : WStore) (key : String) (limit : ℕ)
    (window_seconds : ℕ) (now : ℚ) : AllowResult × WStore :=
  let evicted := surviving st key window_seconds now
  let current_count := evicted.length
  let after_add := zadd evicted now
  let st1 : WStore := fun k => if k = key then after_add else st k
  let info : RateInfo :=
    { limit := (limit : ℤ)
      remaining := max 0 ((limit : ℤ) - current_count - 1)
      reset := pyTrunc (now + (window_seconds : ℚ))
      window := window_seconds }
  ({ allowed := decide (current_count < limit), info := info }, st1)

/-- The follow-up command of the denial branch of `is_allowed` (line 61): a
`ZREM` of the just-added member, issued outside the pipeline as its own
Redis command. -/
def is_allowed_deny_cleanup (st : WStore) (key : String) (now : ℚ) : WStore :=
  fun k => if k = key then zrem (st k) now else st k

/-- `RateLimiter.is_allowed(key, limit, window_seconds)`: the full method,
i.e. the atomic pipeline followed (on denial) by the cleanup `ZREM`. -/
def is_allowed (st : WStore) (key : String) (limit : ℕ)
    (window_seconds : ℕ) (now : ℚ) : AllowResult × WStore :=
  let (r, st1) := is_allowed_pipeline st key limit window_seconds now
  if r.allowed then (r, st1) else (r, is_allowed_deny_cleanup st1 key now)

/-! ## Claim C2: decision metadata of the sliding-window check -/

/-- Helper: full characterization of the `is_allowed` decision metadata in
terms of the surviving count. -/
theorem is_allowed_metadata
    (st : WStore) (key : String) (limit window_seconds : ℕ) (now : ℚ) :
    let count := (surviving st key window_seconds now).length
    let r := (is_allowed st key limit window_seconds now).1
    r.allowed = decide (count < limit)
      ∧ r.info.remaining =
          (if r.allowed then max 0 ((limit : ℤ) - count - 1)
           else max 0 ((limit : ℤ) - count))
      ∧ r.info.reset = pyTrunc (now + (window_seconds : ℚ))
      ∧ r.info.limit = (limit : ℤ)
      ∧ r.info.window = window_seconds := by
  intro count r
  show r.allowed = decide (count < limit) ∧ _
  by_cases hc : count < limit
  · have : r = (is_allowed_pipeline st key limit window_seconds now).1 := by
      simp [r, is_allowed, is_allowed_pipeline, count, hc]
    rw [this]
    simp [is_allowed_pipeline, count, hc]
  · have hr : r = (is_allowed_pipeline st key limit window_seconds now).1 := by
      simp [r, is_allowed, is_allowed_pipeline, count, hc]
    rw [hr]
    have hge : (limit : ℤ) ≤ (count : ℤ) := by exact_mod_cast Nat.le_of_not_lt hc
    simp [is_allowed_pipeline, count, hc]
    omega

/-- C2. For every sliding-window check, with `count` the number of surviving
(non-evicted) events before the check: the decision admits iff
`count < limit`, `remaining = max(0, limit - count - 1)` when admitted and
`max(0, limit - count)` when denied, and `resetAtEpochSeconds` is the check's
epoch second plus `windowSeconds`. -/
theorem sliding_window_decision_metadata
    (st : WStore) (key : String) (limit window_seconds : ℕ) (now : ℚ)
    (h0 : 0 ≤ now) :
    let count := (surviving st key window_seconds now).length
    let r := (is_allowed st key limit window_seconds now).1
    r.allowed = decide (count < limit)
      ∧ r.info.remaining =
          (if r.allowed then max 0 ((limit : ℤ) - count - 1)
           else max 0 ((limit : ℤ) - count))
      ∧ r.info.reset = ⌊now⌋ + (window_seconds : ℤ) := by
  intro count r
  refine ⟨(is_allowed_metadata st key limit window_seconds now).1,
    (is_allowed_metadata st key limit window_seconds now).2.1, ?_⟩
  rw [(is_allowed_metadata st key limit window_seconds now).2.2.1]
  have hnn : (0 : ℚ) ≤ now + (window_seconds : ℚ) := by positivity
  rw [pyTrunc, if_pos hnn,
    show ((window_seconds : ℚ)) = ((window_seconds : ℤ) : ℚ) by push_cast; ring]
  exact Int.floor_add_int now window_seconds

/-- Witness for `sliding_window_decision_metadata` at a concrete check. -/
theorem sliding_window_decision_metadata_witness :
    ((0 : ℚ) ≤ 2)
    ∧ (let count := (surviving emptyWStore "ratelimit:ip:1.2.3.4:minute" 60 2).length
       let r := (is_allowed emptyWStore "ratelimit:ip:1.2.3.4:minute" 5 60 2).1
       r.allowed = decide (count < 5)
         ∧ r.info.remaining =
             (if r.allowed then max 0 ((5 : ℤ) - count - 1)
              else max 0 ((5 : ℤ) - count))
         ∧ r.info.reset = ⌊(2 : ℚ)⌋ + (60 : ℤ)) :=
  ⟨by norm_num,
   sliding_window_decision_metadata emptyWStore "ratelimit:ip:1.2.3.4:minute" 5 60 2
     (by norm_num)⟩

/-! ## Claim C3: no double-admit under concurrent checks on one key

Two concurrent `is_allowed` calls on the same key are interleavings of
atomic shared-store steps: each call runs its MULTI/EXEC pipeline as one
step and, if it denied, later runs its cleanup `ZREM` as another step. The
decision of a call is fixed at its pipeline step, so an interleaving is
determined by which call's pipeline runs first and by whether a cleanup of
the first call (present only when it denied) runs before the second call's
pipeline. -/

/-- One interleaved execution of two concurrent `is_allowed` checks against
the same `key` with the same `limit`/`window_seconds`, at timestamps `tA`
and `tB`. `aFirst` says whose pipeline executes first; `cleanupBetween`
schedules the first call's denial cleanup (if any) before the second call's
pipeline. Returns the two calls' verdicts `(allowedA, allowedB)`. -/
def twoConcurrentChecks (aFirst cleanupBetween : Bool) (st : WStore)
    (key : String) (limit window_seconds : ℕ) (tA tB : ℚ) : Bool × Bool :=
  let t1 := if aFirst then tA else tB
  let t2 := if aFirst then tB else tA
  let (r1, st1) := is_allowed_pipeline st key limit window_seconds t1
  let st1' := if ¬ r1.allowed ∧ cleanupBetween
              then is_allowed_deny_cleanup st1 key t1 else st1
  let (r2, _) := is_allowed_pipeline st1' key limit window_seconds t2
  if aFirst then (r1.allowed, r2.allowed) else (r2.allowed, r1.allowed)

/-- C3. Two concurrent checks against the same key with `limit = 1`, starting
from an empty window and lying within one window of each other, never both
report `allowed = true`, in every interleaving: the two eviction-count-insert
pipelines serialize, so the later one counts the earlier one's inserted
timestamp. -/
theorem no_double_admit (aFirst cleanupBetween : Bool) (key : String)
    (window_seconds : ℕ) (tA tB : ℚ)
    (hw : 0 < window_seconds)
    (hAB : tA ≤ tB) (hconc : tB < tA + window_seconds) :
    ¬ ((twoConcurrentChecks aFirst cleanupBetween emptyWStore key 1
          window_seconds tA tB).1 = true
       ∧ (twoConcurrentChecks aFirst cleanupBetween emptyWStore key 1
          window_seconds tA tB).2 = true) := by
  rintro ⟨hA, hB⟩
  have hwq : (0 : ℚ) < (window_seconds : ℚ) := by exact_mod_cast hw
  -- the first pipeline runs on an empty set: count 0, admitted, inserts t1
  -- the second pipeline then counts the surviving t1 and denies
  rcases haf : aFirst with _ | _
  · -- B's pipeline first at tB, then A's at tA; tB survives A's eviction
    have hsurv : ¬ ((0 : ℚ) ≤ tB ∧ tB ≤ tA - (window_seconds : ℚ)) := by
      rintro ⟨-, hle⟩
      have : tA ≤ tB := hAB
      linarith
    simp only [twoConcurrentChecks, haf] at hA hB
    simp [is_allowed_pipeline, is_allowed_deny_cleanup, surviving,
      zremrangebyscore, zadd, emptyWStore, hsurv] at hA hB
  · -- A's pipeline first at tA, then B's at tB; tA survives B's eviction
    have hsurv : ¬ ((0 : ℚ) ≤ tA ∧ tA ≤ tB - (window_seconds : ℚ)) := by
      rintro ⟨-, hle⟩
      linarith
    simp only [twoConcurrentChecks, haf] at hA hB
    simp [is_allowed_pipeline, is_allowed_deny_cleanup, surviving,
      zremrangebyscore, zadd, emptyWStore, hsurv] at hA hB

/-- Witness for `no_double_admit` at a concrete interleaving and timestamps. -/
theorem no_double_admit_witness :
    (0 < 60 ∧ (0 : ℚ) ≤ 1 ∧ (1 : ℚ) < 0 + (60 : ℕ))
    ∧ ¬ ((twoConcurrentChecks true false emptyWStore "ratelimit:ip:1.2.3.4:minute"
            1 60 0 1).1 = true
         ∧ (twoConcurrentChecks true false emptyWStore "ratelimit:ip:1.2.3.4:minute"
            1 60 0 1).2 = true) :=
  ⟨⟨by decide, by norm_num, by norm_num⟩,
   no_double_admit true false "ratelimit:ip:1.2.3.4:minute" 60 0 1
     (by decide) (by norm_num) (by norm_num)⟩

/-! ## Rate-limit configuration (`app/config.py`) -/

/-- The rate-limit options of `Settings` consumed by the limiters. -/
structure Settings where
  RATE_LIMIT_IP_PER_MINUTE : ℕ
  RATE_LIMIT_IP_PER_HOUR : ℕ
  RATE_LIMIT_USER_PER_MINUTE : ℕ
  RATE_LIMIT_USER_PER_HOUR : ℕ
  RATE_LIMIT_TOOL_PER_MINUTE : ℕ
  RATE_LIMIT_BURST_SIZE : ℕ
deriving Repr, DecidableEq

/-- The default configuration values of `app/config.py` (lines 60-65). -/
def defaultSettings : Settings :=
  { RATE_LIMIT_IP_PER_MINUTE := 60
    RATE_LIMIT_IP_PER_HOUR := 1000
    RATE_LIMIT_USER_PER_MINUTE := 100
    RATE_LIMIT_USER_PER_HOUR := 2000
    RATE_LIMIT_TOOL_PER_MINUTE := 30
    RATE_LIMIT_BURST_SIZE := 10 }

/-! ## Scoped checks and the admission gate
(`RateLimiter.check_ip_limit` / `check_user_limit` / `check_tool_limit`,
`app/api/deps.py` `check_rate_limit`)

Each `is_allowed` call reads `time.time()` afresh; the call sites are given
their timestamps explicitly. Alongside the result and the store, the gate
functions return the trace of Redis keys actually checked, in order. -/

def ipMinuteKey (ip : String) : String := "ratelimit:ip:" ++ ip ++ ":minute"
def ipHourKey (ip : String) : String := "ratelimit:ip:" ++ ip ++ ":hour"
def userMinuteKey (uid : String) : String := "ratelimit:user:" ++ uid ++ ":minute"
def userHourKey (uid : String) : String := "ratelimit:user:" ++ uid ++ ":hour"
def toolKey (tool uid : String) : String :=
  "ratelimit:tool:" ++ tool ++ ":user:" ++ uid ++ ":minute"

/-- `RateLimiter.check_ip_limit`: per-minute check, early return on denial,
then per-hour check. -/
def check_ip_limit (st : WStore) (ip : String) (s : Settings)
    (tMinute tHour : ℚ) : AllowResult × WStore × List String :=
  let (r1, st1) := is_allowed st (ipMinuteKey ip) s.RATE_LIMIT_IP_PER_MINUTE 60 tMinute
  if ¬ r1.allowed then (r1, st1, [ipMinuteKey ip])
  else
    let (r2, st2) := is_allowed st1 (ipHourKey ip) s.RATE_LIMIT_IP_PER_HOUR 3600 tHour
    (r2, st2, [ipMinuteKey ip, ipHourKey ip])

/-- `RateLimiter.check_user_limit`: per-minute check, early return on denial,
then per-hour check. -/
def check_user_limit (st : WStore) (uid : String) (s : Settings)
    (tMinute tHour : ℚ) : AllowResult × WStore × List String :=
  let (r1, st1) := is_allowed st (userMinuteKey uid) s.RATE_LIMIT_USER_PER_MINUTE 60 tMinute
  if ¬ r1.allowed then (r1, st1, [userMinuteKey uid])
  else
    let (r2, st2) := is_allowed st1 (userHourKey uid) s.RATE_LIMIT_USER_PER_HOUR 3600 tHour
    (r2, st2, [userMinuteKey uid, userHourKey uid])

/-- `RateLimiter.check_tool_limit`: a single sliding-window check on the
tool-and-user scoped key, limit `RATE_LIMIT_TOOL_PER_MINUTE`, 60-second
window. This is the whole method body (rate_limiter.py lines 108-119). -/
def check_tool_limit (st : WStore) (tool uid : String) (s : Settings)
    (t : ℚ) : AllowResult × WStore :=
  is_allowed st (toolKey tool uid) s.RATE_LIMIT_TOOL_PER_MINUTE 60 t

/-- The rate-limit response headers attached to the 429 raised by
`check_rate_limit` in `app/api/deps.py`, each `str()` of an `info` field. -/
structure RateHeaders where
  limitHeader : String
  remainingHeader : String
  resetHeader : String
  retryAfter : String
deriving Repr, DecidableEq

def headersOf (i : RateInfo) : RateHeaders :=
  { limitHeader := toString i.limit
    remainingHeader := toString i.remaining
    resetHeader := toString i.reset
    retryAfter := toString i.window }

/-- `check_rate_limit` (`app/api/deps.py` lines 117-153): IP checks, then —
only for an authenticated user — user checks; a denial raises a 429 carrying
that check's metadata, modelled as `some headers`. `clock i` is the value of
the i-th `time.time()` read (i in check order: IP-minute, IP-hour,
user-minute, user-hour). -/
def check_rate_limit (st : WStore) (ip : String) (user : Option String)
    (s : Settings) (clock : ℕ → ℚ) :
    Option RateHeaders × WStore × List String :=
  let (r, st1, tr1) := check_ip_limit st ip s (clock 0) (clock 1)
  if ¬ r.allowed then (some (headersOf r.info), st1, tr1)
  else
    match user with
    | none => (none, st1, tr1)
    | some uid =>
      let (r2, st2, tr2) := check_user_limit st1 uid s (clock 2) (clock 3)
      if ¬ r2.allowed then (some (headersOf r2.info), st2, tr1 ++ tr2)
      else (none, st2, tr1 ++ tr2)

/-! ## Claim C6: fixed precedence and short-circuit of the admission gate -/

/-- Modelled from the spec: the gate's check list in its fixed precedence
order — IP per-minute, IP per-hour, then (only if authenticated) user
per-minute, user per-hour — each as (key, limit, windowSeconds, timestamp). -/
def gateCheckList (ip : String) (user : Option String) (s : Settings)
    (clock : ℕ → ℚ) : List (String × ℕ × ℕ × ℚ) :=
  [(ipMinuteKey ip, s.RATE_LIMIT_IP_PER_MINUTE, 60, clock 0),
   (ipHourKey ip, s.RATE_LIMIT_IP_PER_HOUR, 3600, clock 1)]
  ++ (match user with
      | none => []
      | some uid =>
        [(userMinuteKey uid, s.RATE_LIMIT_USER_PER_MINUTE, 60, clock 2),
         (userHourKey uid, s.RATE_LIMIT_USER_PER_HOUR, 3600, clock 3)])

/-- Modelled from the spec: run a list of sliding-window checks strictly in
order, short-circuiting at the first denial and surfacing that check's
metadata verbatim; later checks never run (they appear in neither the trace
nor the store effects). -/
def runChecksInOrder (st : WStore) :
    List (String × ℕ × ℕ × ℚ) → Option RateHeaders × WStore × List String
  | [] => (none, st, [])
  | (key, limit, w, t) :: rest =>
    let (r, st1) := is_allowed st key limit w t
    if r.allowed then
      let (res, st2, tr) := runChecksInOrder st1 rest
      (res, st2, key :: tr)
    else (some (headersOf r.info), st1, [key])

/-- C6. The gate evaluates exactly the ordered check list — IP per-minute,
IP per-hour, then (authenticated only) user per-minute, user per-hour —
short-circuiting on the first denial with that check's metadata
(limit / remaining / reset / Retry-After = windowSeconds) surfaced verbatim;
unauthenticated callers skip the user-level checks. -/
theorem gate_precedence_short_circuit (st : WStore) (ip : String)
    (user : Option String) (s : Settings) (clock : ℕ → ℚ) :
    check_rate_limit st ip user s clock
      = runChecksInOrder st (gateCheckList ip user s clock) := by
  cases user with
  | none =>
    simp only [check_rate_limit, check_ip_limit, gateCheckList, runChecksInOrder,
      List.nil_append, List.append_nil]
    by_cases h1 : (is_allowed st (ipMinuteKey ip) s.RATE_LIMIT_IP_PER_MINUTE 60 (clock 0)).1.allowed
    · simp [h1, runChecksInOrder]
      by_cases h2 : (is_allowed ((is_allowed st (ipMinuteKey ip)
          s.RATE_LIMIT_IP_PER_MINUTE 60 (clock 0)).2) (ipHourKey ip)
          s.RATE_LIMIT_IP_PER_HOUR 3600 (clock 1)).1.allowed
      · simp [h2, runChecksInOrder]
      · simp [h2, runChecksInOrder]
    · simp [h1, runChecksInOrder]
  | some uid =>
    simp only [check_rate_limit, check_ip_limit, check_user_limit, gateCheckList,
      runChecksInOrder, List.cons_append, List.nil_append]
    by_cases h1 : (is_allowed st (ipMinuteKey ip) s.RATE_LIMIT_IP_PER_MINUTE 60 (clock 0)).1.allowed
    · simp only [h1, not_true, if_neg, ite_false, ite_true, Bool.not_eq_true,
        not_false_iff, runChecksInOrder]
      by_cases h2 : (is_allowed ((is_allowed st (ipMinuteKey ip)
          s.RATE_LIMIT_IP_PER_MINUTE 60 (clock 0)).2) (ipHourKey ip)
          s.RATE_LIMIT_IP_PER_HOUR 3600 (clock 1)).1.allowed
      · simp only [h2, runChecksInOrder, ite_true, not_true, ite_false]
        by_cases h3 : (is_allowed ((is_allowed ((is_allowed st (ipMinuteKey ip)
            s.RATE_LIMIT_IP_PER_MINUTE 60 (clock 0)).2) (ipHourKey ip)
            s.RATE_LIMIT_IP_PER_HOUR 3600 (clock 1)).2) (userMinuteKey uid)
            s.RATE_LIMIT_USER_PER_MINUTE 60 (clock 2)).1.allowed
        · simp [h1, h2, h3, runChecksInOrder]
          by_cases h4 : (is_allowed ((is_allowed ((is_allowed ((is_allowed st
              (ipMinuteKey ip) s.RATE_LIMIT_IP_PER_MINUTE 60 (clock 0)).2)
              (ipHourKey ip) s.RATE_LIMIT_IP_PER_HOUR 3600 (clock 1)).2)
              (userMinuteKey uid) s.RATE_LIMIT_USER_PER_MINUTE 60 (clock 2)).2)
              (userHourKey uid) s.RATE_LIMIT_USER_PER_HOUR 3600 (clock 3)).1.allowed
          · simp [h4, runChecksInOrder]
          · simp [h4, runChecksInOrder]
        · simp [h1, h2, h3, runChecksInOrder]
      · simp [h1, h2, runChecksInOrder]
    · simp [h1, runChecksInOrder]

/-! ## Token bucket (`app/core/rate_limiter.py`, class `TokenBucket`)

The bucket stores two plain Redis values per bucket id: `bucket:{key}`
(available tokens, a float) and `bucket:{key}:last` (last refill time). The
store maps each such value key to `none` (absent) or the stored rational.
The one-hour TTLs set on the admitted branch are not modelled. -/

abbrev BStore := String → Option ℚ

def emptyBStore : BStore := fun _ => none

structure ConsumeResult where
  success : Bool
  remaining : ℤ
deriving Repr, DecidableEq

def bucketValueKey (key : String) : String := "bucket:" ++ key
def bucketLastKey (key : String) : String := "bucket:" ++ key ++ ":last"

/-- Python `bucket_size or settings.RATE_LIMIT_BURST_SIZE`: both `None` and a
falsy `0` fall back to the configured burst size. -/
def effectiveBucketSize (bucket_size : Option ℕ) (s : Settings) : ℕ :=
  match bucket_size with
  | none => s.RATE_LIMIT_BURST_SIZE
  | some 0 => s.RATE_LIMIT_BURST_SIZE
  | some n => n

/-- The lazily refilled token count `TokenBucket.consume` computes before
deciding: stored tokens (full capacity when the key is cold) plus
`elapsed * refill_rate`, capped at the capacity. -/
def refilledTokens (st : BStore) (key : String) (bucket_size : Option ℕ)
    (refill_rate : ℚ) (now : ℚ) (s : Settings) : ℚ :=
  let size := effectiveBucketSize bucket_size s
  let current_tokens := (st (bucketValueKey key)).getD size
  let last_update := (st (bucketLastKey key)).getD now
  min (size : ℚ) (current_tokens + (now - last_update) * refill_rate)
/-- `TokenBucket.consume(key, tokens, bucket_size, refill_rate)`: read both
values, refill lazily, and if the refilled count covers the request persist
the debited state (and `last = now`) and admit; otherwise return the denial
with the store untouched — the deny branch issues no write. -/
def TokenBucket.consume (st : BStore) (key : String) (tokens : ℕ)
    (bucket_size : Option ℕ) (refill_rate : ℚ) (now : ℚ) (s : Settings) :
    ConsumeResult × BStore :=
  if (tokens : ℚ) ≤ refilledTokens st key bucket_size refill_rate now s then
    ({ success := true
       remaining := pyTrunc (refilledTokens st key bucket_size refill_rate now s - tokens) },
     fun k =>
       if k = bucketValueKey key then
         some (refilledTokens st key bucket_size refill_rate now s - tokens)
       else if k = bucketLastKey key then some now
       else st k)
  else
    ({ success := false
       remaining := pyTrunc (refilledTokens st key bucket_size refill_rate now s) }, st)

/-- Helper: the two Redis value keys of one bucket are distinct. -/
theorem bucket_keys_ne (key : String) : bucketValueKey key ≠ bucketLastKey key := by
  intro heq
  have h := congrArg String.length heq
  simp [bucketValueKey, bucketLastKey, String.length_append] at h
  exact absurd h (by decide)

/-! ## Claim C4: what `consume` persists -/

/-- C4 counterexample. A cold bucket of capacity 5 asked for 10 tokens is
denied, and — contrary to the claim — nothing is persisted: both bucket keys
remain absent from the store, not the claimed refilled-but-not-debited state
`(availableTokens = 5, lastRefillEpochSeconds = now)`. -/
theorem consume_deny_persists_nothing :
    (TokenBucket.consume emptyBStore "tool:42" 10 (some 5) 1 0
        defaultSettings).1.success = false
    ∧ (TokenBucket.consume emptyBStore "tool:42" 10 (some 5) 1 0
        defaultSettings).2 (bucketValueKey "tool:42") = none
    ∧ (TokenBucket.consume emptyBStore "tool:42" 10 (some 5) 1 0
        defaultSettings).2 (bucketLastKey "tool:42") = none
    ∧ (none : Option ℚ) ≠ some 5 := by
  have hnle : ¬ ((10 : ℕ) : ℚ) ≤ refilledTokens emptyBStore "tool:42" (some 5) 1 0
      defaultSettings := by
    simp only [refilledTokens, effectiveBucketSize, emptyBStore, Option.getD_none]
    norm_num
  rw [TokenBucket.consume, if_neg hnle]
  exact ⟨rfl, rfl, rfl, by simp⟩

/-- C4 as amended. When the refilled token count is insufficient, `consume`
returns `admitted = false` with the refilled (undebited, truncated) count and
leaves the shared store entirely unchanged; when sufficient, it returns
`admitted = true` and persists the debited count under `bucket:{key}` and
`now` under `bucket:{key}:last`, leaving every other key unchanged. -/
theorem consume_persistence (st : BStore) (key : String) (tokens : ℕ)
    (bucket_size : Option ℕ) (refill_rate now : ℚ) (s : Settings) :
    (refilledTokens st key bucket_size refill_rate now s < (tokens : ℚ) →
      TokenBucket.consume st key tokens bucket_size refill_rate now s
        = ({ success := false
             remaining := pyTrunc (refilledTokens st key bucket_size refill_rate now s) },
           st))
    ∧ ((tokens : ℚ) ≤ refilledTokens st key bucket_size refill_rate now s →
      (TokenBucket.consume st key tokens bucket_size refill_rate now s).1
          = { success := true
              remaining :=
                pyTrunc (refilledTokens st key bucket_size refill_rate now s - tokens) }
        ∧ (TokenBucket.consume st key tokens bucket_size refill_rate now s).2
            (bucketValueKey key)
            = some (refilledTokens st key bucket_size refill_rate now s - tokens)
        ∧ (TokenBucket.consume st key tokens bucket_size refill_rate now s).2
            (bucketLastKey key) = some now
        ∧ ∀ k, k ≠ bucketValueKey key → k ≠ bucketLastKey key →
            (TokenBucket.consume st key tokens bucket_size refill_rate now s).2 k
              = st k) := by
  constructor
  · intro hlt
    rw [TokenBucket.consume, if_neg (not_le.mpr hlt)]
  · intro hle
    refine ⟨?_, ?_, ?_, ?_⟩
    · rw [TokenBucket.consume, if_pos hle]
    · rw [TokenBucket.consume, if_pos hle]
      simp
    · rw [TokenBucket.consume, if_pos hle]
      simp [(bucket_keys_ne key).symm]
    · intro k hk1 hk2
      rw [TokenBucket.consume, if_pos hle]
      simp [hk1, hk2]

/-- Witness for `consume_persistence`: a bucket holding 3 tokens asked for 1
token at its stored refill instant is admitted with the debited state. -/
theorem consume_persistence_witness :
    (((1 : ℕ) : ℚ) ≤ refilledTokens
        (fun k => if k = bucketValueKey "t" then some 3
                  else if k = bucketLastKey "t" then some 7 else none)
        "t" none 1 7 defaultSettings)
    ∧ (TokenBucket.consume
        (fun k => if k = bucketValueKey "t" then some 3
                  else if k = bucketLastKey "t" then some 7 else none)
        "t" 1 none 1 7 defaultSettings).1
        = { success := true
            remaining := pyTrunc (refilledTokens
              (fun k => if k = bucketValueKey "t" then some 3
                        else if k = bucketLastKey "t" then some 7 else none)
              "t" none 1 7 defaultSettings - (1 : ℕ)) }
    ∧ (TokenBucket.consume
        (fun k => if k = bucketValueKey "t" then some 3
                  else if k = bucketLastKey "t" then some 7 else none)
        "t" 1 none 1 7 defaultSettings).2 (bucketLastKey "t") = some 7 := by
  have hle : ((1 : ℕ) : ℚ) ≤ refilledTokens
      (fun k => if k = bucketValueKey "t" then some 3
                else if k = bucketLastKey "t" then some 7 else none)
      "t" none 1 7 defaultSettings := by
    simp only [refilledTokens, effectiveBucketSize, defaultSettings, if_pos rfl,
      if_neg (bucket_keys_ne "t").symm, ite_true, Option.getD_some]
    norm_num
  exact ⟨hle,
    ((consume_persistence
      (fun k => if k = bucketValueKey "t" then some 3
                else if k = bucketLastKey "t" then some 7 else none)
      "t" 1 none 1 7 defaultSettings).2 hle).1,
    ((consume_persistence
      (fun k => if k = bucketValueKey "t" then some 3
                else if k = bucketLastKey "t" then some 7 else none)
      "t" 1 none 1 7 defaultSettings).2 hle).2.2.1⟩

/-! ## Claim C5: which limiters the tool-scoped check consults -/

/-- C5 counterexample. With a token bucket completely drained (the burst
controller denies even a single token), the tool-scoped check on a fresh
window still admits: `TokenBucket` takes no part in `check_tool_limit`. -/
theorem tool_check_ignores_token_bucket :
    (TokenBucket.consume
        (fun k => if k = bucketValueKey "tool:t1" then some 0
                  else if k = bucketLastKey "tool:t1" then some 5 else none)
        "tool:t1" 1 none 0 5 defaultSettings).1.success = false
    ∧ (check_tool_limit emptyWStore "t1" "u1" defaultSettings 5).1.allowed = true := by
  constructor
  · have hnle : ¬ ((1 : ℕ) : ℚ) ≤ refilledTokens
        (fun k => if k = bucketValueKey "tool:t1" then some 0
                  else if k = bucketLastKey "tool:t1" then some 5 else none)
        "tool:t1" none 0 5 defaultSettings := by
      simp only [refilledTokens, effectiveBucketSize, defaultSettings, if_pos rfl,
        if_neg (bucket_keys_ne "tool:t1").symm, ite_true, Option.getD_some]
      norm_num
    rw [TokenBucket.consume, if_neg hnle]
  · simp [check_tool_limit, is_allowed, is_allowed_pipeline, surviving,
      zremrangebyscore, emptyWStore, defaultSettings]

/-- C5 as amended. The tool-scoped per-minute check is a single
sliding-window check on the `ratelimit:tool:{tool}:user:{user}:minute` key:
its verdict is determined by the surviving window count against
`RATE_LIMIT_TOOL_PER_MINUTE` over a 60-second window alone, with no
token-bucket input. -/
theorem tool_check_is_sliding_window_only (st : WStore) (tool uid : String)
    (s : Settings) (t : ℚ) :
    let r := (check_tool_limit st tool uid s t).1
    r.allowed
      = decide ((surviving st (toolKey tool uid) 60 t).length
          < s.RATE_LIMIT_TOOL_PER_MINUTE)
      ∧ r.info.window = 60
      ∧ r.info.limit = (s.RATE_LIMIT_TOOL_PER_MINUTE : ℤ) := by
  have h := is_allowed_metadata st (toolKey tool uid)
    s.RATE_LIMIT_TOOL_PER_MINUTE 60 t
  exact ⟨h.1, h.2.2.2.2, h.2.2.2.1⟩

/-! ## JSON values (for request/response bodies of the MCP protocol)

Python values that flow through `response.json()` and the result dataclass:
`None` is `jnull`; dicts are association lists with unique keys (the shape a
parsed JSON object has). -/

inductive JVal where
  | jnull : JVal
  | jbool : Bool → JVal
  | jnum : ℚ → JVal
  | jstr : String → JVal
  | jarr : List JVal → JVal
  | jobj : List (String × JVal) → JVal

/-- Dictionary lookup; keys of a parsed JSON object are unique, so the first
match is the match. -/
def jlookup : List (String × JVal) → String → Option JVal
  | [], _ => none
  | (k2, v) :: rest, k => if k = k2 then some v else jlookup rest k

/-- Python `d.get(key, default)`: the stored value when the key is present
(even when that value is `None`), else the default. -/
def pyGet (fields : List (String × JVal)) (k : String) (default : JVal) : JVal :=
  (jlookup fields k).getD default

/-- Python type name of a JSON value, for the `str(AttributeError)` text of
`x.get(...)` on a non-dict (numbers are approximated as `int`). -/
def pyTypeName : JVal → String
  | .jnull => "NoneType"
  | .jbool _ => "bool"
  | .jnum _ => "int"
  | .jstr _ => "str"
  | .jarr _ => "list"
  | .jobj _ => "dict"

/-- The message of the `AttributeError` raised by `v.get("message", ...)`
when `v` is not a dict. -/
def attrErrNoGet (v : JVal) : String :=
  "'" ++ pyTypeName v ++ "' object has no attribute 'get'"

/-! ## MCP tool invocation (`app/mcp/client.py`, `MCPClient.invoke_tool`)

The network is an oracle: attempt `i` of an invocation observes
`outcomes i`. Response bodies are modelled as JSON objects (the MCP
endpoints under test return objects); `Except.error` stands for a body
`response.json()` fails to parse. `duration_ms` (wall-clock) is not
modelled: no claim concerns it. -/

/-- What one `httpx` POST inside `invoke_tool` did. -/
inductive AttemptOutcome where
  | timeout : AttemptOutcome
  | httpResponse : ℕ → String → Except String (List (String × JVal)) → AttemptOutcome
  | exc : String → AttemptOutcome

/-- `ToolResult` (client.py lines 30-36) without the unmodelled
`duration_ms`; Python `None` is `jnull`. -/
structure ToolResult where
  success : Bool
  result : JVal
  error : JVal

/-- Handling of a delivered, parsed 2xx response body (client.py lines
176-192): an `"error"` key wins and its `message` (default
`"Unknown error"`) is surfaced; otherwise the payload is
`data.get("content", data.get("result"))`. A non-dict `"error"` value makes
`data["error"].get` raise `AttributeError`, caught by the blanket
`except Exception`. -/
def handleParsedBody (data : List (String × JVal)) : ToolResult :=
  match jlookup data "error" with
  | some (.jobj efields) =>
    { success := false
      result := .jnull
      error := pyGet efields "message" (.jstr "Unknown error") }
  | some v =>
    { success := false, result := .jnull, error := .jstr (attrErrNoGet v) }
  | none =>
    { success := true
      result := pyGet data "content" (pyGet data "result" .jnull)
      error := .jnull }

/-- Whether `response.raise_for_status()` passes: a 2xx status. -/
def isSuccessStatus (status : ℕ) : Bool := decide (200 ≤ status ∧ status < 300)

/-- The result `invoke_tool` returns for one delivered (non-timeout) attempt
outcome. -/
def attemptResult (status : ℕ) (text : String)
    (body : Except String (List (String × JVal))) : ToolResult :=
  if isSuccessStatus status then
    match body with
    | .error msg => { success := false, result := .jnull, error := .jstr msg }
    | .ok data => handleParsedBody data
  else
    { success := false
      result := .jnull
      error := .jstr ("HTTP " ++ toString status ++ ": " ++ text.take 200) }

/-- The `for attempt in range(settings.MCP_MAX_RETRIES)` loop of
`invoke_tool` (client.py lines 144-223), from attempt index `i` with `fuel`
iterations left: `none` means the loop fell through without returning.
A successful or error-bearing response and any non-timeout exception return
immediately; a timeout retries while `attempt < MCP_MAX_RETRIES - 1` (after
the modelled-away backoff sleep) and otherwise returns the timeout failure.
The second component counts the attempts made. -/
def invokeLoop (outcomes : ℕ → AttemptOutcome) (maxRetries : ℕ) :
    ℕ → ℕ → Option (ToolResult × ℕ)
  | 0, _ => none
  | fuel + 1, i =>
    match outcomes i with
    | .timeout =>
      if i < maxRetries - 1 then invokeLoop outcomes maxRetries fuel (i + 1)
      else some ({ success := false, result := .jnull, error := .jstr "Request timed out" },
                 i + 1)
    | .httpResponse status text body => some (attemptResult status text body, i + 1)
    | .exc msg => some ({ success := false, result := .jnull, error := .jstr msg }, i + 1)

/-- `MCPClient.invoke_tool`: run the retry loop over `MCP_MAX_RETRIES`
attempts; if the loop falls through (possible only with an empty `range`),
return the `"Max retries exceeded"` failure (client.py lines 225-231).
Returns the result together with the number of HTTP attempts made. -/
def invoke_tool (outcomes : ℕ → AttemptOutcome) (maxRetries : ℕ) : ToolResult × ℕ :=
  match invokeLoop outcomes maxRetries maxRetries 0 with
  | some r => r
  | none => ({ success := false, result := .jnull, error := .jstr "Max retries exceeded" }, 0)

/-- Helper: with positive fuel matching the remaining attempt budget, the
retry loop always returns. -/
theorem invokeLoop_isSome (outcomes : ℕ → AttemptOutcome) (maxRetries : ℕ) :
    ∀ fuel i, i + fuel = maxRetries → 1 ≤ fuel →
      (invokeLoop outcomes maxRetries fuel i).isSome := by
  intro fuel
  induction fuel with
  | zero => intro i _ h1; exact absurd h1 (by omega)
  | succ f ih =>
    intro i hsum _
    rw [invokeLoop]
    cases outcomes i with
    | timeout =>
      by_cases hlt : i < maxRetries - 1
      · rw [if_pos hlt]
        exact ih (i + 1) (by omega) (by omega)
      · rw [if_neg hlt]
        rfl
    | httpResponse status text body => rfl
    | exc msg => rfl

/-- Helper: a run of timeout attempts advances the loop without returning. -/
theorem invokeLoop_skip_timeouts (outcomes : ℕ → AttemptOutcome) (maxRetries : ℕ) :
    ∀ (j i fuel : ℕ), (∀ k, k < j → outcomes (i + k) = .timeout) →
      i + j < maxRetries → i + fuel = maxRetries →
      invokeLoop outcomes maxRetries fuel i
        = invokeLoop outcomes maxRetries (fuel - j) (i + j) := by
  intro j
  induction j with
  | zero => intro i fuel _ _ _; simp
  | succ n ih =>
    intro i fuel hto hlt hsum
    have hfuel : ∃ f, fuel = f + 1 := ⟨fuel - 1, by omega⟩
    obtain ⟨f, rfl⟩ := hfuel
    have h0 : outcomes i = .timeout := by
      have := hto 0 (by omega)
      rwa [Nat.add_zero] at this
    rw [invokeLoop, h0]
    rw [if_pos (by omega : i < maxRetries - 1)]
    have := ih (i + 1) f
      (fun k hk => by
        have := hto (k + 1) (by omega)
        rwa [show i + 1 + k = i + (k + 1) by omega])
      (by omega) (by omega)
    rw [this]
    rw [show f + 1 - (n + 1) = f - n by omega,
        show i + (n + 1) = i + 1 + n by omega]

/-! ## Claim C1: the all-timeouts invocation -/

/-- C1 counterexample. With `maxRetries = 3` and a server that always times
out, `invoke_tool` makes exactly 3 attempts and fails — but with
`errorMessage = "Request timed out"`, not the claimed
`"max retries exceeded"`. -/
theorem all_timeouts_message_counterexample :
    (invoke_tool (fun _ => .timeout) 3).1.error = .jstr "Request timed out"
    ∧ (invoke_tool (fun _ => .timeout) 3).2 = 3
    ∧ JVal.jstr "Request timed out" ≠ .jstr "max retries exceeded" := by
  refine ⟨rfl, rfl, fun h => ?_⟩
  injection h with h2
  exact absurd h2 (by decide)

/-- C1 as amended. For every `maxRetries ≥ 1`, an invocation in which every
attempt times out returns `success = false` with
`errorMessage = "Request timed out"` after exactly `maxRetries` attempts (no
more, no fewer); the `"max retries exceeded"` wording of the claim is never
produced on this path. -/
theorem all_timeouts_result (outcomes : ℕ → AttemptOutcome) (maxRetries : ℕ)
    (hpos : 1 ≤ maxRetries)
    (hto : ∀ i, i < maxRetries → outcomes i = .timeout) :
    invoke_tool outcomes maxRetries
      = ({ success := false, result := .jnull, error := .jstr "Request timed out" },
         maxRetries) := by
  have hskip := invokeLoop_skip_timeouts outcomes maxRetries (maxRetries - 1) 0
    maxRetries (fun k hk => by rw [Nat.zero_add]; exact hto k (by omega))
    (by omega) (by omega)
  rw [invoke_tool, hskip]
  have h1 : maxRetries - (maxRetries - 1) = 1 := by omega
  rw [h1, show (0 : ℕ) + (maxRetries - 1) = maxRetries - 1 by omega]
  rw [invokeLoop, hto (maxRetries - 1) (by omega)]
  rw [if_neg (by omega : ¬ maxRetries - 1 < maxRetries - 1)]
  have : maxRetries - 1 + 1 = maxRetries := by omega
  rw [this]

/-- Witness for `all_timeouts_result` at `maxRetries = 3`. -/
theorem all_timeouts_result_witness :
    (1 ≤ 3)
    ∧ invoke_tool (fun _ => .timeout) 3
      = ({ success := false, result := .jnull, error := .jstr "Request timed out" }, 3) :=
  ⟨by decide, all_timeouts_result (fun _ => .timeout) 3 (by decide) (fun _ _ => rfl)⟩

/-! ## Claim C10: the unreachable post-loop return -/

/-- C10. With `MCP_MAX_RETRIES = 0` the retry loop body never runs:
`invoke_tool` returns `success = false`, `errorMessage = "Max retries
exceeded"` having made zero HTTP attempts; and for every `maxRetries ≥ 1`
the loop itself always returns, so the post-loop failure return is reached
only in the zero-retries configuration. -/
theorem zero_retries_post_loop (outcomes : ℕ → AttemptOutcome) :
    invoke_tool outcomes 0
      = ({ success := false, result := .jnull, error := .jstr "Max retries exceeded" }, 0)
    ∧ ∀ maxRetries, 1 ≤ maxRetries →
        (invokeLoop outcomes maxRetries maxRetries 0).isSome := by
  constructor
  · rfl
  · intro maxRetries hpos
    exact invokeLoop_isSome outcomes maxRetries maxRetries 0 (by omega) hpos

/-- Witness for `zero_retries_post_loop` at a concrete outcome stream. -/
theorem zero_retries_post_loop_witness :
    invoke_tool (fun _ => .timeout) 0
      = ({ success := false, result := .jnull, error := .jstr "Max retries exceeded" }, 0)
    ∧ (invokeLoop (fun _ => .timeout) 1 1 0).isSome :=
  ⟨(zero_retries_post_loop (fun _ => .timeout)).1,
   (zero_retries_post_loop (fun _ => .timeout)).2 1 (by decide)⟩

/-! ## Claim C7: application-level error passthrough -/

set_option maxRecDepth 8000 in
/-- C7 counterexample. An invocation whose HTTP response carries the body
with an explicit error object but with status 500 is reported as
`HTTP 500: <body text>` — the status-error path, not the claimed
passthrough of the message `"quota exceeded"` (no retry happens in either
case). -/
theorem error_body_passthrough_counterexample :
    (invoke_tool (fun _ => .httpResponse 500
        "\x7b\"error\": \x7b\"message\": \"quota exceeded\"\x7d\x7d"
        (.ok [("error", .jobj [("message", .jstr "quota exceeded")])])) 3).1.error
      = .jstr ("HTTP 500: " ++ "\x7b\"error\": \x7b\"message\": \"quota exceeded\"\x7d\x7d")
    ∧ (invoke_tool (fun _ => .httpResponse 500
        "\x7b\"error\": \x7b\"message\": \"quota exceeded\"\x7d\x7d"
        (.ok [("error", .jobj [("message", .jstr "quota exceeded")])])) 3).2 = 1
    ∧ JVal.jstr ("HTTP 500: " ++ "\x7b\"error\": \x7b\"message\": \"quota exceeded\"\x7d\x7d")
      ≠ .jstr "quota exceeded" := by
  refine ⟨rfl, rfl, fun h => ?_⟩
  injection h with h2
  exact absurd h2 (by decide)

/-- C7 as amended. For every invocation whose attempt `j` (reached after `j`
timeouts) yields a 2xx response whose parsed body contains
`{"error": {"message": m}}`, `invoke_tool` returns `success = false` with
`errorMessage = m` from that same attempt, and no further attempt is made:
exactly `j + 1` attempts occur. -/
theorem error_body_passthrough (outcomes : ℕ → AttemptOutcome)
    (maxRetries j status : ℕ) (text : String)
    (data efields : List (String × JVal)) (m : JVal)
    (hj : j < maxRetries)
    (hbefore : ∀ k, k < j → outcomes k = .timeout)
    (houtcome : outcomes j = .httpResponse status text (.ok data))
    (hstatus : isSuccessStatus status = true)
    (herr : jlookup data "error" = some (.jobj efields))
    (hmsg : jlookup efields "message" = some m) :
    invoke_tool outcomes maxRetries
      = ({ success := false, result := .jnull, error := m }, j + 1) := by
  have hskip := invokeLoop_skip_timeouts outcomes maxRetries j 0 maxRetries
    (fun k hk => by rw [Nat.zero_add]; exact hbefore k hk) (by omega) (by omega)
  rw [invoke_tool, hskip]
  have hfuel : ∃ f, maxRetries - j = f + 1 := ⟨maxRetries - j - 1, by omega⟩
  obtain ⟨f, hf⟩ := hfuel
  rw [hf, show (0 : ℕ) + j = j by omega, invokeLoop, houtcome]
  simp only [attemptResult, hstatus, if_pos, handleParsedBody, herr, ite_true]
  rw [show pyGet efields "message" (.jstr "Unknown error") = m by
    simp [pyGet, hmsg]]

/-- Witness for `error_body_passthrough`: a first-attempt 200 response with
an explicit error object surfaces its message after exactly one attempt. -/
theorem error_body_passthrough_witness :
    invoke_tool (fun _ => .httpResponse 200 ""
        (.ok [("error", .jobj [("message", .jstr "quota exceeded")])])) 3
      = ({ success := false, result := .jnull, error := .jstr "quota exceeded" }, 1) :=
  error_body_passthrough
    (fun _ => .httpResponse 200 ""
      (.ok [("error", .jobj [("message", .jstr "quota exceeded")])]))
    3 0 200 "" [("error", .jobj [("message", .jstr "quota exceeded")])]
    [("message", .jstr "quota exceeded")] (.jstr "quota exceeded")
    (by decide) (fun k hk => absurd hk (by omega)) rfl (by decide) rfl rfl

/-! ## MCP tool discovery (`app/mcp/client.py`, `MCPClient.discover_tools`)

The entire method body sits in one `try` whose handlers
(`except httpx.HTTPError` and `except Exception`) both return `[]`; the
oracle describes what the POST to `/tools/list` did. The optional encrypted
credential is modelled post-`decrypt_value`: `some (.ok key)` decrypted
fine, `some (.error msg)` means `decrypt_value` raised (caught by the
blanket handler), `none` means no credential was configured. -/

/-- `Tool` (client.py lines 20-27); the dataclass fields receive whatever
values `tool_data.get` produced, so the JSON-derived fields are `JVal`. -/
structure Tool where
  name : JVal
  description : JVal
  parameters : JVal
  app_id : String
  app_name : String

/-- What the discovery POST did (same outcome shapes as an invocation
attempt). -/
inductive FetchOutcome where
  | timeout : FetchOutcome
  | httpResponse : ℕ → String → Except String (List (String × JVal)) → FetchOutcome
  | exc : String → FetchOutcome

/-- The `for tool_data in data.get("tools", [])` loop succeeds only when the
`tools` value is a list with every element a dict; any other shape raises
(`TypeError`/`AttributeError`) inside the `try`, discarding even
already-collected tools. -/
def extractToolObjs : JVal → Option (List (List (String × JVal)))
  | .jarr xs => xs.mapM (fun x => match x with
      | .jobj td => some td
      | _ => none)
  | _ => none

/-- Build one `Tool` from a tool dict (client.py lines 112-118). -/
def toolOfObj (app_id app_name : String) (td : List (String × JVal)) : Tool :=
  { name := pyGet td "name" (.jstr "")
    description := pyGet td "description" (.jstr "")
    parameters := pyGet td "inputSchema" (.jobj [])
    app_id := app_id
    app_name := app_name }

/-- Decision of whether a discovery run failed somewhere inside the `try`
(decrypt raise, transport error, timeout, non-2xx status via
`raise_for_status`, unparseable JSON, or a wrongly-shaped `tools` value). -/
def discoveryFailed (cred : Option (Except String String))
    (outcome : FetchOutcome) : Bool :=
  match cred with
  | some (.error _) => true
  | _ =>
    match outcome with
    | .timeout => true
    | .exc _ => true
    | .httpResponse status _ body =>
      if isSuccessStatus status then
        match body with
        | .error _ => true
        | .ok data => (extractToolObjs (pyGet data "tools" (.jarr []))).isNone
      else true

/-- `MCPClient.discover_tools`: a total function — every failure mode lands
in one of the two `except` handlers and yields `[]`. -/
def discover_tools (cred : Option (Except String String))
    (outcome : FetchOutcome) (app_id app_name : String) : List Tool :=
  match cred with
  | some (.error _) => []
  | _ =>
    match outcome with
    | .timeout => []
    | .exc _ => []
    | .httpResponse status _ body =>
      if isSuccessStatus status then
        match body with
        | .error _ => []
        | .ok data =>
          match extractToolObjs (pyGet data "tools" (.jarr [])) with
          | some tds => tds.map (toolOfObj app_id app_name)
          | none => []
      else []

/-! ## Claim C8: discovery resilience -/

/-- C8. `discover_tools` never raises (it is a total function into tool
lists) and on any failure — decryption error, network error or timeout,
non-2xx status, malformed JSON, or a wrongly-shaped catalogue — it returns
the empty sequence. -/
theorem discovery_failure_yields_empty (cred : Option (Except String String))
    (outcome : FetchOutcome) (app_id app_name : String)
    (hfail : discoveryFailed cred outcome = true) :
    discover_tools cred outcome app_id app_name = [] := by
  cases cred with
  | none =>
    cases outcome with
    | timeout => rfl
    | exc msg => rfl
    | httpResponse status text body =>
      simp only [discoveryFailed, discover_tools]
      simp only [discoveryFailed] at hfail
      by_cases hs : isSuccessStatus status = true
      · rw [if_pos hs]
        rw [if_pos hs] at hfail
        cases body with
        | error msg => rfl
        | ok data =>
          simp only at hfail ⊢
          cases hobjs : extractToolObjs (pyGet data "tools" (.jarr [])) with
          | none => rfl
          | some tds =>
            rw [hobjs] at hfail
            simp [Option.isNone] at hfail
      · rw [if_neg hs]
  | some c =>
    cases c with
    | error msg => rfl
    | ok key =>
      cases outcome with
      | timeout => rfl
      | exc msg => rfl
      | httpResponse status text body =>
        simp only [discoveryFailed, discover_tools]
        simp only [discoveryFailed] at hfail
        by_cases hs : isSuccessStatus status = true
        · rw [if_pos hs]
          rw [if_pos hs] at hfail
          cases body with
          | error msg => rfl
          | ok data =>
            simp only at hfail ⊢
            cases hobjs : extractToolObjs (pyGet data "tools" (.jarr [])) with
            | none => rfl
            | some tds =>
              rw [hobjs] at hfail
              simp [Option.isNone] at hfail
        · rw [if_neg hs]

/-- Witness for `discovery_failure_yields_empty`: an endpoint answering
HTTP 500 yields an empty tool sequence. -/
theorem discovery_failure_yields_empty_witness :
    discoveryFailed none (.httpResponse 500 "Internal Server Error"
        (.error "invalid json")) = true
    ∧ discover_tools none (.httpResponse 500 "Internal Server Error"
        (.error "invalid json")) "app1" "App One" = [] :=
  ⟨by decide,
   discovery_failure_yields_empty none
     (.httpResponse 500 "Internal Server Error" (.error "invalid json"))
     "app1" "App One" (by decide)⟩

/-! ## Request signing (`app/core/security.py` lines 175-200)

`sign_request` computes `hmac.new(secret, message, hashlib.sha256)
.hexdigest()` over the canonical message
`"{method}\n{endpoint}\n{timestamp}\n{body}"`; `verify_signature`
recomputes and compares with `hmac.compare_digest`. The `hashlib`/`hmac`
primitives are embedded concretely: SHA-256 per FIPS 180-4 over byte lists
(naturals mod 256), words as naturals mod 2^32, and HMAC with the standard
ipad/opad construction. Strings are encoded to UTF-8 bytes as Python
`str.encode()` does. -/

def m32 (x : ℕ) : ℕ := x % 4294967296

/-- Rotate a 32-bit word right by `n`. -/
def rotr32 (n x : ℕ) : ℕ := m32 (x / 2 ^ n + x % 2 ^ n * 2 ^ (32 - n))

def shr32 (n x : ℕ) : ℕ := x / 2 ^ n

/-- Bitwise complement within 32 bits. -/
def not32 (x : ℕ) : ℕ := 4294967295 - m32 x

def ch32 (x y z : ℕ) : ℕ := (x &&& y) ^^^ (not32 x &&& z)

def maj32 (x y z : ℕ) : ℕ := (x &&& y) ^^^ (x &&& z) ^^^ (y &&& z)

def bsig0 (x : ℕ) : ℕ := rotr32 2 x ^^^ rotr32 13 x ^^^ rotr32 22 x

def bsig1 (x : ℕ) : ℕ := rotr32 6 x ^^^ rotr32 11 x ^^^ rotr32 25 x

def ssig0 (x : ℕ) : ℕ := rotr32 7 x ^^^ rotr32 18 x ^^^ shr32 3 x

def ssig1 (x : ℕ) : ℕ := rotr32 17 x ^^^ rotr32 19 x ^^^ shr32 10 x

/-- Sum a list of words modulo 2^32. -/
def add32 (xs : List ℕ) : ℕ := m32 (xs.foldl (· + ·) 0)

/-- A SHA-256 hash state: eight 32-bit words (also used as the a–h round
state, in field order). -/
structure Digest where
  w0 : ℕ
  w1 : ℕ
  w2 : ℕ
  w3 : ℕ
  w4 : ℕ
  w5 : ℕ
  w6 : ℕ
  w7 : ℕ

def sha256InitialHash : Digest :=
  ⟨1779033703, 3144134277, 1013904242, 2773480762,
   1359893119, 2600822924, 528734635, 1541459225⟩

/-- The 64 SHA-256 round constants (decimal). -/
def sha256K : List ℕ :=
  [1116352408, 1899447441, 3049323471, 3921009573, 961987163,
   1508970993, 2453635748, 2870763221, 3624381080, 310598401,
   607225278, 1426881987, 1925078388, 2162078206, 2614888103,
   3248222580, 3835390401, 4022224774, 264347078, 604807628,
   770255983, 1249150122, 1555081692, 1996064986, 2554220882,
   2821834349, 2952996808, 3210313671, 3336571891, 3584528711,
   113926993, 338241895, 666307205, 773529912, 1294757372,
   1396182291, 1695183700, 1986661051, 2177026350, 2456956037,
   2730485921, 2820302411, 3259730800, 3345764771, 3516065817,
   3600352804, 4094571909, 275423344, 430227734, 506948616,
   659060556, 883997877, 958139571, 1322822218, 1537002063,
   1747873779, 1955562222, 2024104815, 2227730452, 2361852424,
   2428436474, 2756734187, 3204031479, 3329325298]

/-- Message-schedule expansion of one 16-word block to 64 words. -/
def scheduleW (block : List ℕ) : List ℕ :=
  (List.range 64).foldl
    (fun w t =>
      if t < 16 then w ++ [block.getD t 0]
      else w ++ [add32 [ssig1 (w.getD (t - 2) 0), w.getD (t - 7) 0,
                        ssig0 (w.getD (t - 15) 0), w.getD (t - 16) 0]])
    []

/-- One compression round on the a–h state, given `(K_t, W_t)`. -/
def roundStep (s : Digest) (kw : ℕ × ℕ) : Digest :=
  let t1 := add32 [s.w7, bsig1 s.w4, ch32 s.w4 s.w5 s.w6, kw.1, kw.2]
  let t2 := add32 [bsig0 s.w0, maj32 s.w0 s.w1 s.w2]
  ⟨add32 [t1, t2], s.w0, s.w1, s.w2, add32 [s.w3, t1], s.w4, s.w5, s.w6⟩

/-- SHA-256 compression of one block into the running hash. -/
def compress (h : Digest) (block : List ℕ) : Digest :=
  let s := (sha256K.zip (scheduleW block)).foldl roundStep h
  ⟨add32 [h.w0, s.w0], add32 [h.w1, s.w1], add32 [h.w2, s.w2], add32 [h.w3, s.w3],
   add32 [h.w4, s.w4], add32 [h.w5, s.w5], add32 [h.w6, s.w6], add32 [h.w7, s.w7]⟩

/-- The bit length of the message as eight big-endian bytes. -/
def be64 (n : ℕ) : List ℕ :=
  [n / 2 ^ 56 % 256, n / 2 ^ 48 % 256, n / 2 ^ 40 % 256, n / 2 ^ 32 % 256,
   n / 2 ^ 24 % 256, n / 2 ^ 16 % 256, n / 2 ^ 8 % 256, n % 256]

/-- SHA-256 padding: a 0x80 byte, zeros to 56 mod 64, then the bit length. -/
def sha256Pad (msg : List ℕ) : List ℕ :=
  msg ++ 128 :: (List.replicate ((119 - msg.length % 64) % 64) 0 ++ be64 (8 * msg.length))

/-- Four big-endian bytes as one 32-bit word. -/
def wordOfBytes (b0 b1 b2 b3 : ℕ) : ℕ :=
  b0 % 256 * 16777216 + b1 % 256 * 65536 + b2 % 256 * 256 + b3 % 256

/-- The sixteen words of block `i` of a padded message. -/
def blockWords (padded : List ℕ) (i : ℕ) : List ℕ :=
  (List.range 16).map (fun j =>
    wordOfBytes (padded.getD (64 * i + 4 * j) 0) (padded.getD (64 * i + 4 * j + 1) 0)
      (padded.getD (64 * i + 4 * j + 2) 0) (padded.getD (64 * i + 4 * j + 3) 0))

/-- SHA-256 of a byte list, as the final eight-word hash state. -/
def sha256Digest (msg : List ℕ) : Digest :=
  let padded := sha256Pad msg
  (List.range (padded.length / 64)).foldl
    (fun h i => compress h (blockWords padded i)) sha256InitialHash

/-- One 32-bit word as four big-endian bytes. -/
def be4 (w : ℕ) : List ℕ :=
  [w / 16777216 % 256, w / 65536 % 256, w / 256 % 256, w % 256]

/-- SHA-256 of a byte list, as its 32 digest bytes. -/
def sha256Bytes (msg : List ℕ) : List ℕ :=
  let d := sha256Digest msg
  be4 d.w0 ++ be4 d.w1 ++ be4 d.w2 ++ be4 d.w3
    ++ be4 d.w4 ++ be4 d.w5 ++ be4 d.w6 ++ be4 d.w7

/-- HMAC-SHA256 (RFC 2104): hash an over-long key, zero-pad to the 64-byte
block, and chain the ipad/opad hashes. -/
def hmacSha256 (key msg : List ℕ) : List ℕ :=
  let k0 := if 64 < key.length then sha256Bytes key else key
  let kp := k0 ++ List.replicate (64 - k0.length) 0
  sha256Bytes (kp.map (fun b => b ^^^ 92) ++ sha256Bytes (kp.map (fun b => b ^^^ 54) ++ msg))

/-- UTF-8 encoding of one code point. -/
def utf8Char (c : ℕ) : List ℕ :=
  if c < 128 then [c]
  else if c < 2048 then [192 + c / 64, 128 + c % 64]
  else if c < 65536 then [224 + c / 4096, 128 + c / 64 % 64, 128 + c % 64]
  else [240 + c / 262144, 128 + c / 4096 % 64, 128 + c / 64 % 64, 128 + c % 64]

/-- Python `s.encode()`: the UTF-8 bytes of a string. -/
def strBytes (s : String) : List ℕ :=
  s.data.foldr (fun c acc => utf8Char c.toNat ++ acc) []

/-- A byte list read as one big-endian natural number. -/
def bytesToNat (bs : List ℕ) : ℕ :=
  bs.foldl (fun acc b => acc * 256 + b % 256) 0

def hexChar (d : ℕ) : Char := "0123456789abcdef".data.getD d '0'

/-- The `digits` least-significant base-16 digits of `n`, least significant
first. -/
def hexDigitsLE : ℕ → ℕ → List ℕ
  | 0, _ => []
  | f + 1, n => n % 16 :: hexDigitsLE f (n / 16)

/-- `n` rendered as exactly `digits` lowercase hex characters. -/
def natToHexPadded (digits n : ℕ) : String :=
  String.mk ((hexDigitsLE digits n).reverse.map hexChar)

/-- Python `.hexdigest()`: each digest byte as two lowercase hex characters,
i.e. the big-endian byte value rendered in base 16 padded to
`2 * length` digits. -/
def hexdigest (bs : List ℕ) : String :=
  natToHexPadded (2 * bs.length) (bytesToNat bs)

/-- The canonical signing message
`f"{method}\n{endpoint}\n{timestamp}\n{body}"` (security.py line 182,
client.py line 69). -/
def canonicalMessage (method endpoint timestamp body : String) : String :=
  method ++ "\n" ++ endpoint ++ "\n" ++ timestamp ++ "\n" ++ body

/-- `sign_request(endpoint, method, body, timestamp)` of security.py, with
the `settings.MCP_SIGNING_SECRET` it reads passed explicitly. -/
def sign_request (secret endpoint method body timestamp : String) : String :=
  hexdigest (hmacSha256 (strBytes secret)
    (strBytes (canonicalMessage method endpoint timestamp body)))

/-- `hmac.compare_digest` on two hex strings: constant-time comparison whose
value is string equality (the timing behaviour is not modelled). -/
def compare_digest (a b : String) : Bool := a == b

/-- `verify_signature(endpoint, method, body, timestamp, signature)`:
recompute and compare. -/
def verify_signature (secret endpoint method body timestamp signature : String) : Bool :=
  compare_digest signature (sign_request secret endpoint method body timestamp)

/-- `MCPClient._sign_request(endpoint, method, body, api_key)` (client.py
lines 60-79): the same construction keyed by the tool's API key, with the
timestamp taken as `str(int(time.time()))`; returns the two header values
`(X-MCP-Timestamp, X-MCP-Signature)`. -/
def mcp_sign_request (endpoint method body api_key : String) (now : ℚ) : String × String :=
  let timestamp := toString (pyTrunc now)
  (timestamp,
   hexdigest (hmacSha256 (strBytes api_key)
     (strBytes (canonicalMessage method endpoint timestamp body))))

/-! ## Facts about the digest encoding -/

/-- Helper: the big-endian fold stays below `M * 256 ^ length` from any
accumulator below `M`. -/
theorem bytesToNat_fold_lt (bs : List ℕ) :
    ∀ acc M, acc < M →
      bs.foldl (fun acc b => acc * 256 + b % 256) acc < M * 256 ^ bs.length := by
  induction bs with
  | nil => intro acc M h; simpa using h
  | cons b rest ih =>
    intro acc M h
    have hb : b % 256 < 256 := Nat.mod_lt _ (by omega)
    have hstep : acc * 256 + b % 256 < M * 256 := by
      have h1 : acc + 1 ≤ M := h
      have h2 : (acc + 1) * 256 ≤ M * 256 := Nat.mul_le_mul_right 256 h1
      omega
    have := ih (acc * 256 + b % 256) (M * 256) hstep
    calc List.foldl (fun acc b => acc * 256 + b % 256) (acc * 256 + b % 256) rest
        < M * 256 * 256 ^ rest.length := this
      _ = M * 256 ^ (rest.length + 1) := by rw [Nat.pow_succ]; ring
      _ = M * 256 ^ (b :: rest).length := by rw [List.length_cons]

/-- A byte list's big-endian value is below `256 ^ length`. -/
theorem bytesToNat_lt (bs : List ℕ) : bytesToNat bs < 256 ^ bs.length := by
  have := bytesToNat_fold_lt bs 0 1 (by omega)
  simpa [bytesToNat] using this

/-- A SHA-256 digest is 32 bytes. -/
theorem sha256Bytes_length (msg : List ℕ) : (sha256Bytes msg).length = 32 := by
  simp [sha256Bytes, be4]

/-- An HMAC-SHA256 tag is 32 bytes. -/
theorem hmacSha256_length (key msg : List ℕ) : (hmacSha256 key msg).length = 32 := by
  rw [hmacSha256]
  exact sha256Bytes_length _

/-- The numeric value of an HMAC-SHA256 tag is below `2 ^ 256`. -/
theorem hmac_value_lt (key msg : List ℕ) :
    bytesToNat (hmacSha256 key msg) < 2 ^ 256 := by
  have h := bytesToNat_lt (hmacSha256 key msg)
  rw [hmacSha256_length] at h
  calc bytesToNat (hmacSha256 key msg) < 256 ^ 32 := h
    _ = 2 ^ 256 := by norm_num

theorem hexDigitsLE_mem_lt (f : ℕ) :
    ∀ n d, d ∈ hexDigitsLE f n → d < 16 := by
  induction f with
  | zero => intro n d h; simp [hexDigitsLE] at h
  | succ g ih =>
    intro n d h
    rw [hexDigitsLE] at h
    rcases List.mem_cons.mp h with h1 | h2
    · rw [h1]; exact Nat.mod_lt _ (by omega)
    · exact ih (n / 16) d h2

theorem hexDigitsLE_inj (f : ℕ) :
    ∀ m n, m < 16 ^ f → n < 16 ^ f → hexDigitsLE f m = hexDigitsLE f n → m = n := by
  induction f with
  | zero => intro m n hm hn _; simp [Nat.pow_zero] at hm hn; omega
  | succ g ih =>
    intro m n hm hn h
    rw [hexDigitsLE, hexDigitsLE] at h
    have h1 : m % 16 = n % 16 := by injection h
    have h2 : hexDigitsLE g (m / 16) = hexDigitsLE g (n / 16) := by injection h
    have hm2 : m / 16 < 16 ^ g := by
      rw [Nat.pow_succ] at hm
      omega
    have hn2 : n / 16 < 16 ^ g := by
      rw [Nat.pow_succ] at hn
      omega
    have h3 := ih (m / 16) (n / 16) hm2 hn2 h2
    omega

theorem hexChar_inj_on :
    ∀ a, a < 16 → ∀ b, b < 16 → hexChar a = hexChar b → a = b := by decide

theorem map_hexChar_inj :
    ∀ l1 l2 : List ℕ, (∀ d ∈ l1, d < 16) → (∀ d ∈ l2, d < 16) →
      l1.map hexChar = l2.map hexChar → l1 = l2 := by
  intro l1
  induction l1 with
  | nil => intro l2 _ _ h; cases l2 with
    | nil => rfl
    | cons b bs => simp at h
  | cons a as ih =>
    intro l2 h1 h2 h
    cases l2 with
    | nil => simp at h
    | cons b bs =>
      simp only [List.map_cons, List.cons.injEq] at h
      have ha : a = b := hexChar_inj_on a (h1 a (by simp)) b (h2 b (by simp)) h.1
      have hrest := ih bs (fun d hd => h1 d (by simp [hd]))
        (fun d hd => h2 d (by simp [hd])) h.2
      rw [ha, hrest]

/-- Fixed-width hex rendering is injective below `16 ^ digits`. -/
theorem natToHexPadded_inj (digits m n : ℕ) (hm : m < 16 ^ digits)
    (hn : n < 16 ^ digits) (h : natToHexPadded digits m = natToHexPadded digits n) :
    m = n := by
  have hdata := congrArg String.data h
  simp only [natToHexPadded] at hdata
  have hrev := map_hexChar_inj (hexDigitsLE digits m).reverse (hexDigitsLE digits n).reverse
    (fun d hd => hexDigitsLE_mem_lt digits m d (List.mem_reverse.mp hd))
    (fun d hd => hexDigitsLE_mem_lt digits n d (List.mem_reverse.mp hd))
    hdata
  exact hexDigitsLE_inj digits m n hm hn (List.reverse_injective hrev)

/-- Two 32-byte digests with equal hexdigests have equal numeric values. -/
theorem hexdigest_eq_iff (bs1 bs2 : List ℕ) (h1 : bs1.length = 32)
    (h2 : bs2.length = 32) :
    hexdigest bs1 = hexdigest bs2 ↔ bytesToNat bs1 = bytesToNat bs2 := by
  constructor
  · intro h
    rw [hexdigest, hexdigest, h1, h2] at h
    refine natToHexPadded_inj 64 _ _ ?_ ?_ h
    · have := bytesToNat_lt bs1
      rw [h1] at this
      calc bytesToNat bs1 < 256 ^ 32 := this
        _ = 16 ^ 64 := by norm_num
    · have := bytesToNat_lt bs2
      rw [h2] at this
      calc bytesToNat bs2 < 256 ^ 32 := this
        _ = 16 ^ 64 := by norm_num
  · intro h
    rw [hexdigest, hexdigest, h1, h2, h]

/-! ## Facts about the canonical message -/

theorem append_data (a b : String) : (a ++ b).data = a.data ++ b.data :=
  String.data_append a b

theorem data_eq_imp (a b : String) (h : a.data = b.data) : a = b := by
  cases a; cases b; exact congrArg String.mk h

theorem canonicalMessage_data (m e t b : String) :
    (canonicalMessage m e t b).data
      = m.data ++ ('\n' :: (e.data ++ ('\n' :: (t.data ++ ('\n' :: b.data))))) := by
  simp [canonicalMessage, append_data, List.append_assoc]

/-- Changing only the method changes the canonical message. -/
theorem canonicalMessage_method_inj (m1 m2 e t b : String)
    (h : canonicalMessage m1 e t b = canonicalMessage m2 e t b) : m1 = m2 := by
  have hd := congrArg String.data h
  rw [canonicalMessage_data, canonicalMessage_data] at hd
  exact data_eq_imp m1 m2 (List.append_cancel_right hd)

/-- Changing only the endpoint changes the canonical message. -/
theorem canonicalMessage_endpoint_inj (m e1 e2 t b : String)
    (h : canonicalMessage m e1 t b = canonicalMessage m e2 t b) : e1 = e2 := by
  have hd := congrArg String.data h
  rw [canonicalMessage_data, canonicalMessage_data] at hd
  have h1 := List.append_cancel_left hd
  have h2 : e1.data ++ ('\n' :: (t.data ++ ('\n' :: b.data)))
      = e2.data ++ ('\n' :: (t.data ++ ('\n' :: b.data))) := by injection h1
  exact data_eq_imp e1 e2 (List.append_cancel_right h2)

/-- Changing only the timestamp changes the canonical message. -/
theorem canonicalMessage_timestamp_inj (m e t1 t2 b : String)
    (h : canonicalMessage m e t1 b = canonicalMessage m e t2 b) : t1 = t2 := by
  have hd := congrArg String.data h
  rw [canonicalMessage_data, canonicalMessage_data] at hd
  have h1 := List.append_cancel_left hd
  have h2 : e.data ++ ('\n' :: (t1.data ++ ('\n' :: b.data)))
      = e.data ++ ('\n' :: (t2.data ++ ('\n' :: b.data))) := by injection h1
  have h3 := List.append_cancel_left h2
  have h4 : t1.data ++ ('\n' :: b.data) = t2.data ++ ('\n' :: b.data) := by injection h3
  exact data_eq_imp t1 t2 (List.append_cancel_right h4)

/-- Changing only the body changes the canonical message. -/
theorem canonicalMessage_body_inj (m e t b1 b2 : String)
    (h : canonicalMessage m e t b1 = canonicalMessage m e t b2) : b1 = b2 := by
  have hd := congrArg String.data h
  rw [canonicalMessage_data, canonicalMessage_data] at hd
  have h1 := List.append_cancel_left hd
  have h2 : e.data ++ ('\n' :: (t.data ++ ('\n' :: b1.data)))
      = e.data ++ ('\n' :: (t.data ++ ('\n' :: b2.data))) := by injection h1
  have h3 := List.append_cancel_left h2
  have h4 : t.data ++ ('\n' :: b1.data) = t.data ++ ('\n' :: b2.data) := by injection h3
  have h5 := List.append_cancel_left h4
  have h6 : b1.data = b2.data := by injection h5
  exact data_eq_imp b1 b2 h6

/-! ## Claim C9: signature round-trip and single-field sensitivity -/

/-- C9 counterexample. The claim's second half — changing one field always
flips verification to `false` — is refutable in principle: the signing
message space is infinite while HMAC-SHA256 tags live in a space of `2^256`
values, so by pigeonhole two distinct bodies (all other fields held fixed at
the concrete values below) share a tag, and verifying the original signature
against the changed tuple still returns `true` for them. -/
theorem signature_flip_counterexample :
    ¬ (∀ secret endpoint method body timestamp body2 : String,
        body2 ≠ body →
        verify_signature secret endpoint method body2 timestamp
          (sign_request secret endpoint method body timestamp) = false) := by
  intro hclaim
  obtain ⟨b1, b2, hne, heq⟩ :=
    Finite.exists_ne_map_eq_of_infinite
      (fun b : String =>
        (⟨bytesToNat (hmacSha256 (strBytes "mcp-secret")
            (strBytes (canonicalMessage "POST" "https://tools.example/api"
              "1700000000" b))),
          hmac_value_lt _ _⟩ : Fin (2 ^ 256)))
  have hval : bytesToNat (hmacSha256 (strBytes "mcp-secret")
        (strBytes (canonicalMessage "POST" "https://tools.example/api"
          "1700000000" b1)))
      = bytesToNat (hmacSha256 (strBytes "mcp-secret")
        (strBytes (canonicalMessage "POST" "https://tools.example/api"
          "1700000000" b2))) := by
    simpa using congrArg Fin.val heq
  have hsig : sign_request "mcp-secret" "https://tools.example/api" "POST" b1
        "1700000000"
      = sign_request "mcp-secret" "https://tools.example/api" "POST" b2
        "1700000000" := by
    rw [sign_request, sign_request]
    exact (hexdigest_eq_iff _ _ (hmacSha256_length _ _) (hmacSha256_length _ _)).mpr hval
  have hfalse := hclaim "mcp-secret" "https://tools.example/api" "POST" b1
    "1700000000" b2 (Ne.symm hne)
  rw [verify_signature, hsig, compare_digest] at hfalse
  simp at hfalse

/-- C9 as amended. Verifying a signature produced by signing the same tuple
with the same secret always returns `true`; verification returns `true`
exactly for the recomputed signature; changing exactly one of the four
fields always changes the canonical signing message (the message encoding is
injective per field); and verifying the original signature after a body
change fails exactly when the two distinct messages' HMAC-SHA256 values
differ — which injectivity cannot force, since hash collisions exist over an
infinite message space. -/
theorem signature_scheme (secret endpoint method body timestamp : String) :
    verify_signature secret endpoint method body timestamp
        (sign_request secret endpoint method body timestamp) = true
    ∧ (∀ sig, verify_signature secret endpoint method body timestamp sig = true
        ↔ sig = sign_request secret endpoint method body timestamp)
    ∧ (∀ m2, m2 ≠ method →
        canonicalMessage m2 endpoint timestamp body
          ≠ canonicalMessage method endpoint timestamp body)
    ∧ (∀ e2, e2 ≠ endpoint →
        canonicalMessage method e2 timestamp body
          ≠ canonicalMessage method endpoint timestamp body)
    ∧ (∀ t2, t2 ≠ timestamp →
        canonicalMessage method endpoint t2 body
          ≠ canonicalMessage method endpoint timestamp body)
    ∧ (∀ b2, b2 ≠ body →
        canonicalMessage method endpoint timestamp b2
          ≠ canonicalMessage method endpoint timestamp body)
    ∧ (∀ b2, verify_signature secret endpoint method b2 timestamp
          (sign_request secret endpoint method body timestamp) = false
        ↔ bytesToNat (hmacSha256 (strBytes secret)
              (strBytes (canonicalMessage method endpoint timestamp b2)))
            ≠ bytesToNat (hmacSha256 (strBytes secret)
              (strBytes (canonicalMessage method endpoint timestamp body)))) := by
  refine ⟨?_, ?_, ?_, ?_, ?_, ?_, ?_⟩
  · simp [verify_signature, compare_digest]
  · intro sig
    simp [verify_signature, compare_digest, beq_iff_eq]
  · exact fun m2 hne h => hne (canonicalMessage_method_inj m2 method endpoint
      timestamp body h)
  · exact fun e2 hne h => hne (canonicalMessage_endpoint_inj method e2 endpoint
      timestamp body h)
  · exact fun t2 hne h => hne (canonicalMessage_timestamp_inj method endpoint t2
      timestamp body h)
  · exact fun b2 hne h => hne (canonicalMessage_body_inj method endpoint
      timestamp b2 body h)
  · intro b2
    rw [verify_signature, compare_digest]
    constructor
    · intro hfalse hdig
      have hsig : sign_request secret endpoint method body timestamp
          = sign_request secret endpoint method b2 timestamp := by
        rw [sign_request, sign_request]
        exact (hexdigest_eq_iff _ _ (hmacSha256_length _ _)
          (hmacSha256_length _ _)).mpr hdig.symm
      rw [hsig] at hfalse
      simp at hfalse
    · intro hdig
      refine beq_eq_false_iff_ne.mpr (fun hsig => hdig ?_)
      rw [sign_request, sign_request] at hsig
      exact ((hexdigest_eq_iff _ _ (hmacSha256_length _ _)
        (hmacSha256_length _ _)).mp hsig).symm

/-- Witness for `signature_scheme` at a concrete request tuple: the
round-trip verifies and a changed body yields a different canonical
message. -/
theorem signature_scheme_witness :
    verify_signature "mcp-secret" "https://tools.example/api" "POST"
        "\x7b\"name\": \"search\"\x7d" "1700000000"
        (sign_request "mcp-secret" "https://tools.example/api" "POST"
          "\x7b\"name\": \"search\"\x7d" "1700000000") = true
    ∧ canonicalMessage "POST" "https://tools.example/api" "1700000000" "other"
        ≠ canonicalMessage "POST" "https://tools.example/api" "1700000000"
          "\x7b\"name\": \"search\"\x7d" :=
  ⟨(signature_scheme "mcp-secret" "https://tools.example/api" "POST"
      "\x7b\"name\": \"search\"\x7d" "1700000000").1,
   (signature_scheme "mcp-secret" "https://tools.example/api" "POST"
      "\x7b\"name\": \"search\"\x7d" "1700000000").2.2.2.2.2.1 "other" (by decide)⟩

end Chatbot
